import Mathlib

/-!
Verification of the asset-management dashboard (`src/app2.py`) against its
natural-language specification.

The dashboard keeps an in-memory table of asset records in the session
state, lets an admin add or delete rows, filters the displayed view by a
single column/value pair, computes summary metrics (total, active,
expiring-soon, expired) and histograms from the displayed view, and writes
the table back to the canonical CSV file unless the table came from an
upload.

Embedding choices:
- A table is a `List Record` (the pandas DataFrame always carries a dense
  `RangeIndex 0..n-1` in this app: `read_csv` produces one, every delete is
  followed by `reset_index(drop=True)`, and every add uses
  `ignore_index=True`, so positional indices and row labels coincide).
- Dates are `Option Int`: the number of days since the epoch for a parse
  success, `none` for the `NaT` produced by
  `pd.to_datetime(..., errors='coerce')`.  Comparisons against `NaT` are
  `False` in pandas, which `dateLE` / `dateLT` reproduce.
- Errors shown to the user (`st.error` / widget refusal) become an
  `Option OpError` paired with the resulting table, so "table unchanged on
  error" is expressible directly.
-/

namespace AssetApp

/-- One asset row, with the columns of `assets.csv`
(Model, Brand, Serial No, Status, Assigned To, Location,
"Warranty End - EOL").  `warrantyEnd` is the already-parsed date:
`none` models pandas `NaT` (unparseable or missing). -/
structure Record where
  model : String
  brand : String
  serialNo : String
  status : String
  assignedTo : String
  location : String
  warrantyEnd : Option Int
deriving DecidableEq, Repr

/-- The session table: ordered rows, positional index = row label. -/
abbrev Table := List Record

/-- Pandas comparison `ts <= bound` on a possibly-`NaT` value:
`NaT <= bound` is `False`. -/
def dateLE (d : Option Int) (bound : Int) : Bool :=
  match d with
  | none => false
  | some x => decide (x ≤ bound)

/-- Pandas comparison `ts < bound` on a possibly-`NaT` value:
`NaT < bound` is `False`. -/
def dateLT (d : Option Int) (bound : Int) : Bool :=
  match d with
  | none => false
  | some x => decide (x < bound)

/-- Rows counted by the "Expiring Soon" metric
(`app2.py` lines 106-110): parsed `Warranty End - EOL`
`<= today + timedelta(days=30)`. -/
def expiringSoon (T : Table) (now : Int) : Table :=
  T.filter (fun r => dateLE r.warrantyEnd (now + 30))

/-- Rows counted by the "Expired Warranty" metric
(`app2.py` lines 112-115): parsed `Warranty End - EOL` `< today`. -/
def expired (T : Table) (now : Int) : Table :=
  T.filter (fun r => dateLT r.warrantyEnd now)

/-- Rows counted by the "Active Assets" metric (`app2.py` line 103):
`Status` lower-cased equals `"active"`. -/
def activeRows (T : Table) : Table :=
  T.filter (fun r => r.status.toLower == "active")

/-- The error taxonomy surfaced at the interaction boundary:
`validationError` for missing required add-fields (`st.error` at line 179),
`indexError` for a delete index outside the `number_input` bounds
(line 146), `permissionError` for a non-admin reaching a mutation
(lines 160/204). -/
inductive OpError where
  | validationError
  | indexError
  | permissionError
deriving DecidableEq, Repr

/-- The "Delete Row" operation (`app2.py` lines 144-158).  The section is
rendered only when `user_role == "admin"`; the `number_input` bounds
`min_value=0, max_value=len(df)-1` refuse any out-of-range index; on
success the row at `index` is dropped and labels re-compacted
(`drop` + `reset_index(drop=True)`), i.e. `List.eraseIdx`.  Returns the
resulting table together with the error signalled, if any; on error the
table is returned unchanged. -/
def deleteRecord (T : Table) (index : Nat) (actorRole : String) :
    Table × Option OpError :=
  if actorRole ≠ "admin" then (T, some .permissionError)
  else if index < T.length then (T.eraseIdx index, none)
  else (T, some .indexError)

/-- The "Add New Asset" form handler (`app2.py` lines 163-202).  The form
is rendered only when `user_role == "admin"`; `if not model or not brand
or not serial` rejects empty required fields; on success the new row is
appended with `pd.concat(..., ignore_index=True)`. -/
def addRecord (T : Table) (fields : Record) (actorRole : String) :
    Table × Option OpError :=
  if actorRole ≠ "admin" then (T, some .permissionError)
  else if fields.model = "" ∨ fields.brand = "" ∨ fields.serialNo = "" then
    (T, some .validationError)
  else (T ++ [fields], none)

/-- Cell of a row under a column name, string-rendered as pandas
`astype(str)` does (the filter at line 95 compares
`df[filter_col].astype(str) == filter_val`).  A parsed date renders via
its day number; `NaT` renders as its fixed textual form. -/
def Record.getField (r : Record) (col : String) : String :=
  if col = "Model" then r.model
  else if col = "Brand" then r.brand
  else if col = "Serial No" then r.serialNo
  else if col = "Status" then r.status
  else if col = "Assigned To" then r.assignedTo
  else if col = "Location" then r.location
  else if col = "Warranty End - EOL" then
    match r.warrantyEnd with
    | none => "NaT"
    | some d => toString d
  else ""

/-- FilterView (`app2.py` lines 84-95): when both a column and a value are
chosen (`if filter_col and filter_val:`), the displayed table becomes
`df[df[filter_col].astype(str) == filter_val]`; an empty column or an
empty value leaves the table unfiltered. -/
def applyFilter (T : Table) (col val : String) : Table :=
  if col = "" ∨ val = "" then T
  else T.filter (fun r => r.getField col == val)

/-- The count a pandas `value_counts()` histogram assigns to a key, for
the brand / location / warranty-month charts (`app2.py` lines 122-137):
the number of rows of the (displayed) table whose cell equals the key. -/
def histCount (vals : List String) (v : String) : Nat :=
  vals.count v

/-- Civil (year, month, day) from a day number
(days since 1970-01-01, proleptic Gregorian); models pandas timestamp
month bucketing `dt.to_period("M")` at line 133. -/
def civilFromDays (z : Int) : Int × Int × Int :=
  let z' := z + 719468
  let era := (if 0 ≤ z' then z' else z' - 146096) / 146097
  let doe := z' - era * 146097
  let yoe := (doe - doe / 1460 + doe / 36524 - doe / 146096) / 365
  let y := yoe + era * 400
  let doy := doe - (365 * yoe + yoe / 4 - yoe / 100)
  let mp := (5 * doy + 2) / 153
  let d := doy - (153 * mp + 2) / 5 + 1
  let m := if mp < 10 then mp + 3 else mp - 9
  (if m ≤ 2 then y + 1 else y, m, d)

/-- Year-month period of a parsed warranty date (`dt.to_period("M")`). -/
def toPeriodM (d : Int) : Int × Int :=
  ((civilFromDays d).1, (civilFromDays d).2.1)

/-- The month-bucketed warranty histogram count for one month key:
`value_counts()` over `dt.to_period("M")` excludes `NaT` rows
(`app2.py` lines 133-134). -/
def warrantyMonthCount (T : Table) (ym : Int × Int) : Nat :=
  (T.filterMap (fun r => r.warrantyEnd)).countP (fun d => toPeriodM d = ym)

/-- Everything the dashboard body computes from the chosen filter, a
direct transcription of `app2.py` lines 94-137: the displayed table is
the filtered view when both filter widgets are set, and every metric and
histogram below is computed from that displayed table. -/
structure Rendered where
  displayed : Table
  total : Nat
  active : Nat
  expSoonCount : Nat
  expiredCount : Nat
  brandCount : String → Nat
  locationCount : String → Nat
  monthCount : Int × Int → Nat

/-- The render pass over the session table `T` with filter selection
`(col, val)` at reference instant `now` (`app2.py` lines 94-137),
transcribed statement by statement. -/
def renderBody (T : Table) (col val : String) (now : Int) : Rendered :=
  let df := if col ≠ "" ∧ val ≠ "" then
      T.filter (fun r => r.getField col == val)
    else T
  { displayed := df
    total := df.length
    active := (df.filter (fun r => r.status.toLower == "active")).length
    expSoonCount := (df.filter (fun r => dateLE r.warrantyEnd (now + 30))).length
    expiredCount := (df.filter (fun r => dateLT r.warrantyEnd now)).length
    brandCount := fun b => histCount (df.map (fun r => r.brand)) b
    locationCount := fun l => histCount (df.map (fun r => r.location)) l
    monthCount := fun ym => warrantyMonthCount df ym }

/-- Role resolution (`app2.py` line 41):
`config['credentials']['usernames'].get(username, {}).get('role', 'viewer')`.
The credentials configuration maps usernames to an optional `role` field;
an absent user or an entry without a `role` key resolves to `"viewer"`. -/
def resolveRole (usernames : List (String × Option String))
    (username : String) : String :=
  match usernames.lookup username with
  | none => "viewer"
  | some none => "viewer"
  | some (some r) => r

/-- The per-session state: the current table (`st.session_state.df`) and
the `isTemporary` flag (`st.session_state.uploaded`). -/
structure Session where
  df : Table
  uploaded : Bool
deriving DecidableEq, Repr

/-- The user interactions that can change session state or write the
canonical file: uploading a CSV, the delete button, the add form, the
explicit "Save to assets.csv" button, the CSV download button, and
picking a filter. -/
inductive Interaction where
  | upload (newTable : Table)
  | deleteRow (index : Nat)
  | addRow (fields : Record)
  | save
  | download
  | selectFilter (col val : String)
deriving DecidableEq, Repr

/-- One interaction applied to the session (`app2.py` lines 62-216),
returning the new session and whether the canonical file `assets.csv`
was written.

- Upload (lines 62-66) replaces the table and sets `uploaded=True`
  unconditionally — it never consults whether the canonical file exists,
  and never writes it.
- Every other control lives inside `if not df.empty:` (line 79), so with
  an empty table nothing but an upload is offered.
- Delete (lines 144-158) and add (lines 163-202) mutate via
  `deleteRecord` / `addRecord`; on success they write the canonical file
  only `if not st.session_state.uploaded` (lines 152, 196).
- Save (lines 211-214) writes only when `not st.session_state.uploaded`
  (the button is not rendered otherwise).
- The download button (lines 208-209) and the filter widgets (lines
  84-95) never touch the session table or the canonical file. -/
def step (s : Session) (role : String) (act : Interaction) :
    Session × Bool :=
  match act with
  | .upload newTable => ({ df := newTable, uploaded := true }, false)
  | _ =>
    if s.df.isEmpty then (s, false)
    else
      match act with
      | .upload newTable => ({ df := newTable, uploaded := true }, false)
      | .deleteRow i =>
        match deleteRecord s.df i role with
        | (T', none) => ({ s with df := T' }, !s.uploaded)
        | (_, some _) => (s, false)
      | .addRow f =>
        match addRecord s.df f role with
        | (T', none) => ({ s with df := T' }, !s.uploaded)
        | (_, some _) => (s, false)
      | .save => if s.uploaded then (s, false) else (s, true)
      | .download => (s, false)
      | .selectFilter _ _ => (s, false)

/-- A concrete row used in counterexamples and witnesses. -/
def sampleRow : Record :=
  { model := "X1", brand := "Dell", serialNo := "SN1", status := "Active",
    assignedTo := "A", location := "HQ", warrantyEnd := some (-100) }

/-- A second concrete row (different brand/serial). -/
def sampleRow2 : Record :=
  { model := "Y2", brand := "HP", serialNo := "SN2", status := "Expired",
    assignedTo := "B", location := "Lab", warrantyEnd := none }

end AssetApp

open AssetApp

/-- C1 (counterexample): the claim says `expiringSoon` and `expired` are
disjoint, but a row whose warranty ended 100 days before `now` is counted
by both metrics, and a row whose `WarrantyEnd` is exactly `now` is counted
expiring-soon but not expired (contradicting "exactly `now` is counted
expired"). -/
theorem C1_counterexample :
    (sampleRow ∈ expiringSoon [sampleRow] 0 ∧ sampleRow ∈ expired [sampleRow] 0) ∧
    (sampleRow ∈ expiringSoon [sampleRow] (-100) ∧
      sampleRow ∉ expired [sampleRow] (-100)) := by
  decide

/-- C1 (amended): the expired rows are a subset of the expiring-soon rows
(every row with non-null `WarrantyEnd < now` also satisfies
`WarrantyEnd <= now + 30`), and a row whose `WarrantyEnd` is exactly `now`
is counted expiring-soon but not expired. -/
theorem C1_expired_subset_expiringSoon (T : Table) (now : Int) :
    (∀ r, r ∈ expired T now → r ∈ expiringSoon T now) ∧
    (∀ r, r ∈ T → r.warrantyEnd = some now →
      r ∈ expiringSoon T now ∧ r ∉ expired T now) := by
  constructor
  · intro r hr
    rcases List.mem_filter.mp hr with ⟨hmem, hlt⟩
    refine List.mem_filter.mpr ⟨hmem, ?_⟩
    cases hw : r.warrantyEnd with
    | none => simp [dateLT, hw] at hlt
    | some x =>
      simp [dateLT, hw] at hlt
      simp [dateLE, hw]
      omega
  · intro r hmem hw
    constructor
    · exact List.mem_filter.mpr ⟨hmem, by simp [dateLE, hw]⟩
    · intro hcon
      rcases List.mem_filter.mp hcon with ⟨-, hlt⟩
      simp [dateLT, hw] at hlt

/-- C1 witness: the amended statement evaluated at a concrete table
(an expired row is expiring-soon; a row expiring exactly at `now` is
expiring-soon but not expired). -/
theorem C1_witness :
    (sampleRow ∈ expiringSoon [sampleRow] 0) ∧
    (sampleRow ∈ expiringSoon [sampleRow] (-100) ∧
      sampleRow ∉ expired [sampleRow] (-100)) :=
  ⟨(C1_expired_subset_expiringSoon [sampleRow] 0).1 sampleRow (by decide),
   (C1_expired_subset_expiringSoon [sampleRow] (-100)).2 sampleRow (by decide)
     (by decide)⟩

/-- C2: deleting an in-range index `i` as admin succeeds, the result has
length `len(T) - 1`, rows before `i` keep their index, and rows after `i`
shift down by one (so exactly the record formerly at `i` is absent). -/
theorem C2_delete_in_range (T : Table) (i : Nat) (h : i < T.length) :
    (deleteRecord T i "admin").2 = none ∧
    (deleteRecord T i "admin").1.length = T.length - 1 ∧
    (∀ j, j < i → (deleteRecord T i "admin").1[j]? = T[j]?) ∧
    (∀ j, i ≤ j → (deleteRecord T i "admin").1[j]? = T[j + 1]?) := by
  have hok : deleteRecord T i "admin" = (T.eraseIdx i, none) := by
    simp [deleteRecord, h]
  refine ⟨by rw [hok], ?_, ?_, ?_⟩
  · rw [hok]
    exact List.length_eraseIdx_of_lt h
  · intro j hj
    rw [hok]
    exact List.getElem?_eraseIdx_of_lt T i j hj
  · intro j hj
    rw [hok]
    exact List.getElem?_eraseIdx_of_ge T i j hj

/-- C2 witness: deleting index 0 from a two-row table leaves one row,
the former row 1 now at index 0. -/
theorem C2_witness :
    (deleteRecord [sampleRow, sampleRow2] 0 "admin").2 = none ∧
    (deleteRecord [sampleRow, sampleRow2] 0 "admin").1.length = 1 ∧
    (deleteRecord [sampleRow, sampleRow2] 0 "admin").1[0]? = some sampleRow2 := by
  have h := C2_delete_in_range [sampleRow, sampleRow2] 0 (by decide)
  exact ⟨h.1, h.2.1, (h.2.2.2 0 (Nat.le_refl 0)).trans rfl⟩

/-- C3: adding with any of Model/Brand/SerialNo empty leaves the table
unchanged and signals `ValidationError`; with all three non-empty the
permitted actor gets exactly the new row appended at the end. -/
theorem C3_addRecord_validation (T : Table) (f : Record) :
    ((f.model = "" ∨ f.brand = "" ∨ f.serialNo = "") →
      addRecord T f "admin" = (T, some .validationError)) ∧
    (f.model ≠ "" → f.brand ≠ "" → f.serialNo ≠ "" →
      addRecord T f "admin" = (T ++ [f], none)) := by
  constructor
  · intro hbad
    simp [addRecord, hbad]
  · intro h1 h2 h3
    simp [addRecord, h1, h2, h3]

/-- C3 witness: a blank-Model record is rejected with the table unchanged,
and a fully filled record is appended at the end. -/
theorem C3_witness :
    addRecord [sampleRow] { sampleRow2 with model := "" } "admin" =
      ([sampleRow], some .validationError) ∧
    addRecord [sampleRow] sampleRow2 "admin" =
      ([sampleRow, sampleRow2], none) := by
  constructor
  · exact (C3_addRecord_validation [sampleRow] _).1 (Or.inl rfl)
  · exact (C3_addRecord_validation [sampleRow] sampleRow2).2
      (by decide) (by decide) (by decide)

/-- C4: once the session table came from an upload (`uploaded = true`),
no interaction ever writes the canonical file and the flag stays set; and
an upload interaction always sets the flag, from any prior session state
(the upload branch never consults whether the canonical file exists). -/
theorem C4_uploaded_never_persists (s : Session) (role : String)
    (act : Interaction) (h : s.uploaded = true) :
    (step s role act).2 = false ∧
    ((step s role act).1).uploaded = true ∧
    (∀ s' : Session, ∀ T' : Table,
      ((step s' role (.upload T')).1).uploaded = true) := by
  refine ⟨?_, ?_, fun s' T' => rfl⟩ <;>
  · cases act with
    | upload T' => rfl
    | deleteRow i =>
      by_cases he : s.df.isEmpty
      · simp [step, he, h]
      · rcases hd : deleteRecord s.df i role with ⟨T', e⟩
        cases e <;> simp [step, he, hd, h]
    | addRow f =>
      by_cases he : s.df.isEmpty
      · simp [step, he, h]
      · rcases hd : addRecord s.df f role with ⟨T', e⟩
        cases e <;> simp [step, he, hd, h]
    | save => by_cases he : s.df.isEmpty <;> simp [step, he, h]
    | download => by_cases he : s.df.isEmpty <;> simp [step, he, h]
    | selectFilter c v => by_cases he : s.df.isEmpty <;> simp [step, he, h]

/-- C4 witness: in an uploaded session, the save button does not write,
the flag survives, and uploading marks any session temporary. -/
theorem C4_witness :
    (step { df := [sampleRow], uploaded := true } "admin" .save).2 = false ∧
    ((step { df := [sampleRow], uploaded := true } "admin" .save).1).uploaded
      = true := by
  have h := C4_uploaded_never_persists
    { df := [sampleRow], uploaded := true } "admin" .save rfl
  exact ⟨h.1, h.2.1⟩

/-- C5: any non-admin actor (in particular a viewer) attempting a delete
or an add gets `PermissionError` with the table unchanged, while an admin
is never stopped by the permission gate. -/
theorem C5_viewer_readonly (T : Table) (i : Nat) (f : Record)
    (role : String) (h : role ≠ "admin") :
    deleteRecord T i role = (T, some .permissionError) ∧
    addRecord T f role = (T, some .permissionError) ∧
    (deleteRecord T i "admin").2 ≠ some .permissionError ∧
    (addRecord T f "admin").2 ≠ some .permissionError := by
  refine ⟨by simp [deleteRecord, h], by simp [addRecord, h], ?_, ?_⟩
  · by_cases hi : i < T.length <;> simp [deleteRecord, hi]
  · by_cases hv : f.model = "" ∨ f.brand = "" ∨ f.serialNo = "" <;>
      simp [addRecord, hv]

/-- C5 witness: a viewer's delete of index 0 fails with `PermissionError`
and leaves the table unchanged. -/
theorem C5_witness :
    deleteRecord [sampleRow] 0 "viewer" =
      ([sampleRow], some .permissionError) ∧
    addRecord [sampleRow] sampleRow2 "viewer" =
      ([sampleRow], some .permissionError) := by
  have h := C5_viewer_readonly [sampleRow] 0 sampleRow2 "viewer" (by decide)
  exact ⟨h.1, h.2.1⟩

/-- C6: a delete with an index outside `[0, len(T)-1]` signals
`IndexError` for the permitted (admin) actor, and leaves the table
unchanged whatever the actor's role. -/
theorem C6_delete_out_of_range (T : Table) (i : Nat) (h : T.length ≤ i) :
    deleteRecord T i "admin" = (T, some .indexError) ∧
    (∀ role, (deleteRecord T i role).1 = T) := by
  have hnot : ¬ i < T.length := by omega
  constructor
  · simp [deleteRecord, hnot]
  · intro role
    by_cases hr : role = "admin"
    · simp [deleteRecord, hr, hnot]
    · simp [deleteRecord, hr]

/-- C6 witness: deleting index 1 from a one-row table is refused with
`IndexError` and the table is unchanged. -/
theorem C6_witness :
    deleteRecord [sampleRow] 1 "admin" = ([sampleRow], some .indexError) :=
  (C6_delete_out_of_range [sampleRow] 1 (by decide)).1

/-- C7: with an empty column or value the filter returns the table
unchanged; with both chosen it returns a subsequence of the table (order
preserved) containing each row exactly as often as the table does when
the row's cell string-equals the value, and never otherwise. -/
theorem C7_applyFilter (T : Table) (col val : String) :
    (col = "" ∨ val = "" → applyFilter T col val = T) ∧
    (col ≠ "" → val ≠ "" →
      List.Sublist (applyFilter T col val) T ∧
      (∀ r : Record, (applyFilter T col val).count r =
        if r.getField col = val then T.count r else 0)) := by
  constructor
  · intro hempty
    simp [applyFilter, hempty]
  · intro hc hv
    have hne : ¬ (col = "" ∨ val = "") := by
      rintro (h | h) <;> [exact hc h; exact hv h]
    have happ : applyFilter T col val =
        T.filter (fun r => r.getField col == val) := by
      simp [applyFilter, hne]
    constructor
    · rw [happ]
      exact List.filter_sublist T
    · intro r
      rw [happ]
      by_cases hr : r.getField col = val
      · rw [if_pos hr]
        exact List.count_filter (by simp [hr])
      · rw [if_neg hr]
        rw [List.count_eq_zero]
        intro hmem
        rcases List.mem_filter.mp hmem with ⟨-, hpred⟩
        exact hr (by simpa using hpred)

/-- C7 witness: filtering a two-row table by Brand = "HP" keeps exactly
the HP row, and an empty value leaves the table unchanged. -/
theorem C7_witness :
    applyFilter [sampleRow, sampleRow2] "Brand" "" = [sampleRow, sampleRow2] ∧
    ([sampleRow, sampleRow2] : Table).count sampleRow2 =
      (applyFilter [sampleRow, sampleRow2] "Brand" "HP").count sampleRow2 := by
  have h := C7_applyFilter [sampleRow, sampleRow2] "Brand" "HP"
  refine ⟨(C7_applyFilter [sampleRow, sampleRow2] "Brand" "").1 (Or.inr rfl), ?_⟩
  rw [(h.2 (by decide) (by decide)).2 sampleRow2, if_pos (by decide)]

/-- C8: a username absent from the credentials configuration, or present
without a `role` entry, resolves to `"viewer"`, and a viewer's add and
delete attempts are refused with `PermissionError`, table unchanged. -/
theorem C8_deny_by_default (usernames : List (String × Option String))
    (u : String)
    (h : usernames.lookup u = none ∨ usernames.lookup u = some none) :
    resolveRole usernames u = "viewer" ∧
    (∀ T : Table, ∀ i : Nat,
      deleteRecord T i (resolveRole usernames u) =
        (T, some .permissionError)) ∧
    (∀ T : Table, ∀ f : Record,
      addRecord T f (resolveRole usernames u) =
        (T, some .permissionError)) := by
  have hrole : resolveRole usernames u = "viewer" := by
    rcases h with h | h <;> simp [resolveRole, h]
  refine ⟨hrole, ?_, ?_⟩
  · intro T i
    rw [hrole]
    simp [deleteRecord]
  · intro T f
    rw [hrole]
    simp [addRecord]

/-- C8 witness: a username not in a one-user configuration resolves to
viewer and cannot delete. -/
theorem C8_witness :
    resolveRole [("alice", some "admin")] "mallory" = "viewer" ∧
    deleteRecord [sampleRow] 0 (resolveRole [("alice", some "admin")] "mallory")
      = ([sampleRow], some .permissionError) := by
  have h := C8_deny_by_default [("alice", some "admin")] "mallory"
    (Or.inl (by decide))
  exact ⟨h.1, h.2.1 [sampleRow] 0⟩

/-- C9: when a filter with non-empty column and value is active, every
summary metric and every histogram of the render pass is computed over
the filtered subsequence `applyFilter T col val`, not over the stored
table `T`. -/
theorem C9_metrics_over_filtered (T : Table) (col val : String) (now : Int)
    (hc : col ≠ "") (hv : val ≠ "") :
    (renderBody T col val now).displayed = applyFilter T col val ∧
    (renderBody T col val now).total = (applyFilter T col val).length ∧
    (renderBody T col val now).active =
      (activeRows (applyFilter T col val)).length ∧
    (renderBody T col val now).expSoonCount =
      (expiringSoon (applyFilter T col val) now).length ∧
    (renderBody T col val now).expiredCount =
      (expired (applyFilter T col val) now).length ∧
    (∀ b, (renderBody T col val now).brandCount b =
      histCount ((applyFilter T col val).map (fun r => r.brand)) b) ∧
    (∀ l, (renderBody T col val now).locationCount l =
      histCount ((applyFilter T col val).map (fun r => r.location)) l) ∧
    (∀ ym, (renderBody T col val now).monthCount ym =
      warrantyMonthCount (applyFilter T col val) ym) := by
  have hne : ¬ (col = "" ∨ val = "") := by
    rintro (h | h) <;> [exact hc h; exact hv h]
  have hdf : (if col ≠ "" ∧ val ≠ "" then
      T.filter (fun r => r.getField col == val) else T) =
      applyFilter T col val := by
    simp [applyFilter, hne, hc, hv]
  refine ⟨?_, ?_, ?_, ?_, ?_, fun b => ?_, fun l => ?_, fun ym => ?_⟩ <;>
    simp only [renderBody, hdf, activeRows, expiringSoon, expired]

/-- C9 witness: on a concrete two-row table with an active Brand = "HP"
filter, the rendered total counts only the one HP row even though the
stored table has two rows. -/
theorem C9_witness :
    (renderBody [sampleRow, sampleRow2] "Brand" "HP" 0).total = 1 ∧
    ([sampleRow, sampleRow2] : Table).length = 2 := by
  have h := C9_metrics_over_filtered [sampleRow, sampleRow2] "Brand" "HP" 0
    (by decide) (by decide)
  exact ⟨h.2.1.trans (by decide), rfl⟩

/-- C10: an empty session table is a fixed point of every interaction
other than an upload: the dashboard body (filters, metrics, add, delete,
save, export) is gated behind `if not df.empty`, so nothing changes the
session and nothing writes the canonical file. -/
theorem C10_empty_table_fixed_point (s : Session) (role : String)
    (act : Interaction) (hempty : s.df = [])
    (hnup : ∀ T' : Table, act ≠ .upload T') :
    step s role act = (s, false) := by
  have he : s.df.isEmpty = true := by rw [hempty]; rfl
  cases act with
  | upload T' => exact absurd rfl (hnup T')
  | deleteRow i => simp [step, he]
  | addRow f => simp [step, he]
  | save => simp [step, he]
  | download => simp [step, he]
  | selectFilter c v => simp [step, he]

/-- C10 witness: an admin's add of a valid record to an empty session
changes nothing — a first record can never be added to an empty table. -/
theorem C10_witness :
    step { df := [], uploaded := false } "admin" (.addRow sampleRow) =
      ({ df := [], uploaded := false }, false) :=
  C10_empty_table_fixed_point { df := [], uploaded := false } "admin"
    (.addRow sampleRow) rfl (fun T' h => by cases h)
